import Mathlib

/-!
Verification development for the VFS appointment scanner repository.

Shallow embedding conventions:
* Wall-clock instants and durations are rationals, measured in seconds
  (`datetime` values become `ℚ`; `timedelta(minutes=5)` becomes `5 * 60`).
* Effectful primitives of the browser-automation library (navigation,
  locator counting, inner-text extraction, storage snapshots) are modelled
  as oracle fields of explicit world records; a Python exception raised by
  such a primitive is an `Except.error` value.  Code that catches an
  exception consumes the `.error`; code that lets it propagate returns it.
* Python dict truthiness is modelled with `Option` plus explicit flags.
-/

/-! ## Python string primitives

The Python string methods the sources use are modelled directly over the
code-point list of the string (Python strings are sequences of code
points), with ASCII case mapping.  The claims exercised do not depend on
non-ASCII case folding. -/

/-- Model of `str.lower()`. -/
def pyLower (s : String) : String := ⟨s.data.map Char.toLower⟩

/-- Model of `str.upper()`. -/
def pyUpper (s : String) : String := ⟨s.data.map Char.toUpper⟩

/-- Whitespace recognised when stripping and by the regex class. -/
def isPyWhitespace (c : Char) : Bool :=
  c = ' ' || c = '\t' || c = '\n' || c = '\r' || c = '\x0b' || c = '\x0c'

/-- Model of `str.strip()`: drop whitespace from both ends. -/
def pyStrip (s : String) : String :=
  ⟨((s.data.dropWhile isPyWhitespace).reverse.dropWhile isPyWhitespace).reverse⟩

/-- Model of the slice `s[:n]`: the first `n` code points. -/
def pyTake (n : Nat) (s : String) : String := ⟨s.data.take n⟩

/-! ## Session manager (src/worker/session_manager.py) -/

/-- Model of the session-data dict built by `save_session`.
`hasExpiresAt` records whether the `expires_at` key is present;
`expiresAtParse` is `some t` when `datetime.fromisoformat` succeeds on the
stored string, `none` when it raises; `hasState` records presence of the
`state` key; `stateCookies` are the cookies inside the stored state blob. -/
structure SessionData where
  hasExpiresAt : Bool
  expiresAtParse : Option ℚ
  hasState : Bool
  stateCookies : List String
deriving DecidableEq, Repr

/-- Embeds `is_session_valid` (session_manager.py lines 113-132).
The argument is `none` for a falsy `session_data`; a missing key or a
parse failure returns `false`; otherwise the result is
`expires_at > utcnow + 5 minutes`. -/
def is_session_valid (now : ℚ) : Option SessionData → Bool
  | none => false
  | some sd =>
    if !sd.hasExpiresAt then false
    else
      match sd.expiresAtParse with
      | none => false
      | some t => decide (t > now + 5 * 60)

/-- Embeds `save_session` (session_manager.py lines 26-69).  The oracle
`storageState` stands for `context.storage_state` plus the re-read of the
written file: `.ok cookies` is a successful snapshot, `.error` is any
exception inside the `try`, which the function catches and turns into
`None`.  On success the dict carries
`expires_at = utcnow + timedelta(hours=expires_hours)`; the isoformat
round-trip is modelled as a successful parse of that instant. -/
def save_session (now : ℚ) (storageState : Except String (List String))
    (expires_hours : ℚ) : Option SessionData :=
  match storageState with
  | .error _ => none
  | .ok cookies =>
    some { hasExpiresAt := true
           expiresAtParse := some (now + expires_hours * 3600)
           hasState := true
           stateCookies := cookies }

/-- A browser context, reduced to the facet `load_session` mutates: its
cookie set (`context.add_cookies` appends). -/
structure BrowserCtx where
  cookies : List String
deriving DecidableEq, Repr

/-- Oracles for the fallible steps of `load_session`: the temp-file write,
`context.add_cookies`, and `temp_path.unlink`. -/
structure LoadWorld where
  writeTemp : Except String Unit
  addCookies : Except String Unit
  unlinkTemp : Except String Unit

/-- Embeds `load_session` (session_manager.py lines 72-110), threading the
context explicitly.  Order follows the source: falsy / missing-state check,
`fromisoformat` (a missing `expires_at` key raises `KeyError`, caught by
the outer handler), expiry check `utcnow > expires_at`, temp write,
`add_cookies`, unlink.  Any `.error` is caught and reported as `false`. -/
def load_session (now : ℚ) (w : LoadWorld) (ctx : BrowserCtx) :
    Option SessionData → Bool × BrowserCtx
  | none => (false, ctx)
  | some sd =>
    if !sd.hasState then (false, ctx)
    else if !sd.hasExpiresAt then (false, ctx)
    else
      match sd.expiresAtParse with
      | none => (false, ctx)
      | some t =>
        if decide (now > t) then (false, ctx)
        else
          match w.writeTemp with
          | .error _ => (false, ctx)
          | .ok _ =>
            match w.addCookies with
            | .error _ => (false, ctx)
            | .ok _ =>
              let ctx2 : BrowserCtx := ⟨ctx.cookies ++ sd.stateCookies⟩
              match w.unlinkTemp with
              | .error _ => (false, ctx2)
              | .ok _ => (true, ctx2)

/-! ## Country configuration registry (src/country_configs.py) -/

/-- One entry of `COUNTRY_CONFIGS`: URLs, the four selector lists, the
ready selector and the navigation timeout. -/
structure CountryConfig where
  name : String
  base_url : String
  appointment_url : String
  no_appointment : List String
  appointment_slots : List String
  dates : List String
  loading : List String
  wait_for : String
  timeout : Nat
deriving DecidableEq, Repr

/-- The `COUNTRY_CONFIGS` dict (country_configs.py lines 6-163), as an
association list keyed by the lower-case country code. -/
def COUNTRY_CONFIGS : List (String × CountryConfig) :=
  [ ("deu",
     { name := "Germany"
       base_url := "https://visa.vfsglobal.com/tur/en/deu"
       appointment_url := "https://visa.vfsglobal.com/tur/en/deu/book-an-appointment"
       no_appointment :=
         [ "text=No appointment slots are currently available"
         , "text=Şu anda randevu slotu bulunmamaktadır"
         , ".no-appointment-message"
         , ".alert-warning:has-text(\"available\")" ]
       appointment_slots :=
         [ ".appointment-slot.available"
         , "button.appointment-date:not([disabled])"
         , "[data-available=\"true\"]"
         , ".calendar-day.available" ]
       dates := [ ".appointment-date", ".calendar-date", "[data-date]" ]
       loading := [ ".loading", ".spinner", "text=Loading" ]
       wait_for := ".appointment-calendar, .appointment-slots, .no-appointment-message"
       timeout := 30000 })
  , ("bel",
     { name := "Belgium"
       base_url := "https://visa.vfsglobal.com/tur/en/bel"
       appointment_url := "https://visa.vfsglobal.com/tur/en/bel/book-an-appointment"
       no_appointment :=
         [ "text=No appointment slots are currently available"
         , "text=Şu anda randevu slotu bulunmamaktadır"
         , ".no-appointment-message" ]
       appointment_slots :=
         [ ".appointment-slot.available"
         , "button.appointment-date:not([disabled])" ]
       dates := [ ".appointment-date" ]
       loading := [ ".loading" ]
       wait_for := ".appointment-calendar, .appointment-slots"
       timeout := 30000 })
  , ("esp",
     { name := "Spain"
       base_url := "https://visa.vfsglobal.com/tur/en/esp"
       appointment_url := "https://visa.vfsglobal.com/tur/en/esp/book-an-appointment"
       no_appointment :=
         [ "text=No appointment slots are currently available"
         , "text=Şu anda randevu slotu bulunmamaktadır"
         , ".no-appointment-message" ]
       appointment_slots :=
         [ ".appointment-slot.available"
         , "button.appointment-date:not([disabled])" ]
       dates := [ ".appointment-date" ]
       loading := [ ".loading" ]
       wait_for := ".appointment-calendar, .appointment-slots"
       timeout := 30000 })
  , ("fra",
     { name := "France"
       base_url := "https://visa.vfsglobal.com/tur/en/fra"
       appointment_url := "https://visa.vfsglobal.com/tur/en/fra/book-an-appointment"
       no_appointment :=
         [ "text=No appointment slots are currently available"
         , ".no-appointment-message" ]
       appointment_slots := [ ".appointment-slot.available" ]
       dates := [ ".appointment-date" ]
       loading := [ ".loading" ]
       wait_for := ".appointment-calendar"
       timeout := 30000 })
  , ("ita",
     { name := "Italy"
       base_url := "https://visa.vfsglobal.com/tur/en/ita"
       appointment_url := "https://visa.vfsglobal.com/tur/en/ita/book-an-appointment"
       no_appointment :=
         [ "text=No appointment slots are currently available"
         , ".no-appointment-message" ]
       appointment_slots := [ ".appointment-slot.available" ]
       dates := [ ".appointment-date" ]
       loading := [ ".loading" ]
       wait_for := ".appointment-calendar"
       timeout := 30000 })
  , ("nld",
     { name := "Netherlands"
       base_url := "https://visa.vfsglobal.com/tur/en/nld"
       appointment_url := "https://visa.vfsglobal.com/tur/en/nld/book-an-appointment"
       no_appointment :=
         [ "text=No appointment slots are currently available"
         , ".no-appointment-message" ]
       appointment_slots := [ ".appointment-slot.available" ]
       dates := [ ".appointment-date" ]
       loading := [ ".loading" ]
       wait_for := ".appointment-calendar"
       timeout := 30000 })
  ]

/-- The default configuration synthesized by `get_country_config` for an
unregistered code (country_configs.py lines 177-200). -/
def defaultConfig (country_code : String) : CountryConfig :=
  { name := pyUpper country_code
    base_url := "https://visa.vfsglobal.com/tur/en/" ++ pyLower country_code
    appointment_url :=
      "https://visa.vfsglobal.com/tur/en/" ++ pyLower country_code ++ "/book-an-appointment"
    no_appointment :=
      [ "text=No appointment slots are currently available"
      , "text=Şu anda randevu slotu bulunmamaktadır" ]
    appointment_slots := [ ".appointment-slot.available" ]
    dates := [ ".appointment-date" ]
    loading := [ ".loading" ]
    wait_for := ".appointment-calendar"
    timeout := 30000 }

/-- Embeds `get_country_config` (country_configs.py lines 166-200):
`COUNTRY_CONFIGS.get(country_code.lower(), default)`. -/
def get_country_config (country_code : String) : CountryConfig :=
  match COUNTRY_CONFIGS.lookup (pyLower country_code) with
  | some cfg => cfg
  | none => defaultConfig country_code

/-! ## OTP extraction (src/email_otp_reader.py) -/

/-- The character class written as left bracket, colon, backslash-s,
right bracket in the labelled patterns. -/
def isColonOrSpace (c : Char) : Bool :=
  c = ':' || isPyWhitespace c

/-- ASCII decimal digit, the class 0-9 of the patterns. -/
def isAsciiDigit (c : Char) : Bool :=
  '0' ≤ c && c ≤ '9'

/-- Word character for the regex word-boundary assertion:
letters, digits and underscore.  Case folding and word characters are
modelled over ASCII (the claims exercised do not depend on non-ASCII
folding of the Turkish pattern). -/
def isWordChar (c : Char) : Bool :=
  c.isAlphanum || c = '_'

/-- Case-insensitive literal match of `label` at the head of `cs`;
returns the remaining characters on success. -/
def matchLitCI : List Char → List Char → Option (List Char)
  | [], cs => some cs
  | _ :: _, [] => none
  | l :: ls, c :: cs => if l.toLower = c.toLower then matchLitCI ls cs else none

/-- Attempt one labelled pattern at the current position: the literal
label (case-insensitive), then one or more colon-or-whitespace characters,
then four to eight digits, the digits captured greedily (at most eight).
Because no colon-or-whitespace character is a digit, the regex backtracking
over the separator run can never recover a failed digit match, so taking
the maximal separator run is faithful to the Python engine. -/
def matchLabelAt (label : List Char) (cs : List Char) : Option String :=
  match matchLitCI label cs with
  | none => none
  | some rest =>
    let sep := rest.takeWhile isColonOrSpace
    if sep.length = 0 then none
    else
      let after := rest.drop sep.length
      let digits := after.takeWhile isAsciiDigit
      if 4 ≤ digits.length then some (String.mk (digits.take 8))
      else none

/-- Leftmost search for one labelled pattern, as `re.search` does:
try the pattern at each position from the left, first full match wins. -/
def searchLabel (label : List Char) : List Char → Option String
  | [] => matchLabelAt label []
  | c :: rest =>
    match matchLabelAt label (c :: rest) with
    | some code => some code
    | none => searchLabel label rest

/-- Attempt the fallback pattern (word boundary, six digits, word
boundary) at the current position, given the previous character. -/
def matchSixAt (prev : Option Char) (cs : List Char) : Option String :=
  let boundaryBefore :=
    match prev with
    | none => true
    | some p => !isWordChar p
  if boundaryBefore then
    let digits := cs.takeWhile isAsciiDigit
    if 6 ≤ digits.length then
      match cs.drop 6 with
      | [] => if digits.length = 6 then some (String.mk (digits.take 6)) else none
      | d :: _ => if !isWordChar d then some (String.mk (digits.take 6)) else none
    else none
  else none

/-- Leftmost search for the fallback six-digit pattern. -/
def searchSixDigit : Option Char → List Char → Option String
  | _, [] => none
  | prev, c :: rest =>
    match matchSixAt prev (c :: rest) with
    | some code => some code
    | none => searchSixDigit (some c) rest

/-- The four explicitly labelled patterns of `extract_otp_from_text`
(email_otp_reader.py lines 27-33), in source order. -/
def otpLabelPatterns : List (List Char) :=
  [ "OTP".data
  , "verification code".data
  , "one-time password".data
  , "şifre".data ]

/-- Try the labelled patterns in order; first match wins. -/
def tryLabelPatterns (cs : List Char) : List (List Char) → Option String
  | [] => none
  | p :: ps =>
    match searchLabel p cs with
    | some code => some code
    | none => tryLabelPatterns cs ps

/-- Embeds `extract_otp_from_text` (email_otp_reader.py lines 16-40):
the labelled patterns in order, then the bare six-digit fallback. -/
def extract_otp_from_text (text : String) : Option String :=
  match tryLabelPatterns text.data otpLabelPatterns with
  | some code => some code
  | none => searchSixDigit none text.data

/-! ## Login flow (src/vfs_login.py) -/

/-- The dict returned by `login_to_vfs`, reduced to the keys every branch
produces (the optional `debug` key carries no control-flow meaning). -/
structure LoginResult where
  success : Bool
  message : String
  otp_method : String
deriving DecidableEq, Repr

/-- Mailbox credentials dict, reduced to the key the OTP branch tests.
A present dict whose `email_address` key is absent or empty is modelled by
`email_address = none` or `some ""`. -/
structure EmailCreds where
  email_address : Option String
deriving DecidableEq, Repr

/-- Truthiness of `email_credentials and email_credentials.get(email
address key)` at vfs_login.py line 632. -/
def hasUsableEmailCreds : Option EmailCreds → Bool
  | none => false
  | some c =>
    match c.email_address with
    | none => false
    | some a => !(a = "")

/-- Embeds `wait_for_otp_manual` (vfs_login.py lines 47-58): the manual
path always yields the empty string. -/
def wait_for_otp_manual (_timeout_seconds : Nat) : String := ""

/-- Outcome of the login stages before the OTP block (vfs_login.py lines
93-625).  Every path of that code either falls through to the OTP block,
early-returns a `LoginResult`, or raises into the outer handler at line
757; the three constructors record that trichotomy. -/
inductive PreOtpOutcome where
  | proceed : PreOtpOutcome
  | earlyReturn : LoginResult → PreOtpOutcome
  | raised : String → PreOtpOutcome

/-- Outcome of the login stages after an OTP code was obtained
(vfs_login.py lines 667-755): they return some `LoginResult` or raise. -/
inductive PostOtpOutcome where
  | finished : LoginResult → PostOtpOutcome
  | raised : String → PostOtpOutcome

/-- World for one `login_to_vfs` invocation.  `readOtp` stands for
`read_otp_from_email`: `.ok (some code)` on success, `.ok none` on its
timeout, `.error` for an exception (caught at lines 650-651). -/
structure LoginWorld where
  preOtp : PreOtpOutcome
  readOtp : Except String (Option String)
  postOtp : PostOtpOutcome

/-- The result built by the outer exception handler
(vfs_login.py lines 757-766). -/
def loginErrorResult (e : String) : LoginResult :=
  { success := false, message := "Login error: " ++ e, otp_method := "failed" }

/-- Python falsiness of the `otp_code` variable: `None` or empty. -/
def otpFalsy : Option String → Bool
  | none => true
  | some s => s = ""

/-- Embeds `login_to_vfs` (vfs_login.py lines 61-766) at the granularity
of the OTP acquisition block (lines 627-665), which is modelled verbatim;
the stages before and after it are the `preOtp` / `postOtp` oracles. -/
def login_to_vfs (w : LoginWorld) (email_credentials : Option EmailCreds) :
    LoginResult :=
  match w.preOtp with
  | .raised e => loginErrorResult e
  | .earlyReturn r => r
  | .proceed =>
    let acquired : Option String × String :=
      if hasUsableEmailCreds email_credentials then
        match w.readOtp with
        | .ok (some code) => (some code, "auto")
        | .ok none => (none, "failed")
        | .error _ => (none, "failed")
      else (none, "failed")
    let afterManual : Option String × String :=
      if otpFalsy acquired.1 then (some (wait_for_otp_manual 120), "manual")
      else acquired
    if otpFalsy afterManual.1 then
      { success := false, message := "OTP not provided", otp_method := afterManual.2 }
    else
      match w.postOtp with
      | .finished r => r
      | .raised e => loginErrorResult e

/-! ## Scan orchestrator (src/vfs_scanner.py) -/

/-- One element handle returned by `locator.all()`; `innerText` is the
`slot.inner_text()` call, which may raise. -/
structure Slot where
  innerText : Except String String

/-- The page as the classification step observes it: `locatorCount` is
`page.locator(sel).count()`, `locatorAll` is `page.locator(sel).all()`;
either may raise. -/
structure PageState where
  locatorCount : String → Except String Nat
  locatorAll : String → Except String (List Slot)

/-- The dict returned by `scan_country` (vfs_scanner.py lines 140-148). -/
structure ScanResult where
  success : Bool
  country : String
  has_appointment : Bool
  available_slots : Option (List String)
  message : String
  scan_duration_ms : Nat
  session_saved : Bool
deriving DecidableEq, Repr

/-- Page handles opened on the browser context: a fresh-id counter and the
list of ids not yet closed.  `new_page` allocates, `page.close()` removes. -/
structure PageLedger where
  nextId : Nat
  openPages : List Nat
deriving DecidableEq, Repr

/-- Allocate a page handle (`context.new_page()`). -/
def openPage (L : PageLedger) : Nat × PageLedger :=
  (L.nextId, ⟨L.nextId + 1, L.nextId :: L.openPages⟩)

/-- Release a page handle (`page.close()`). -/
def closePage (pid : Nat) (L : PageLedger) : PageLedger :=
  ⟨L.nextId, L.openPages.erase pid⟩

/-- Outcome of `ensure_logged_in` (vfs_login.py lines 769-845) as seen by
`scan_country`.  The function opens a page as its first statement and then
either returns it with the `is_new_login` flag, or raises: a goto timeout
in the session-restore branch propagates, and a non-success login result
triggers `raise Exception(...)` at line 837 — in both raising cases the
page it opened stays open. -/
inductive EnsureOutcome where
  | ok : Bool → EnsureOutcome
  | raised : String → EnsureOutcome

/-- World for one `scan_country` invocation.
`ensure` is the `ensure_logged_in` call on the credentialed path;
`postLoginNav` collapses the uncaught awaits between login and
classification on that path (the direct `page.goto` at line 385,
`wait_for_load_state`, interaction simulation);
`navPublic` is the `page.goto` at line 408 on the public path;
`publicInteract` is the interaction simulation at line 424;
`page` is the page state the classification step queries;
`elapsedMs` is the duration stamp computed from `datetime.now()`. -/
structure ScanWorld where
  ensure : EnsureOutcome
  postLoginNav : Except String Unit
  navPublic : Except String Unit
  publicInteract : Except String Unit
  page : PageState
  elapsedMs : Nat

/-- First loop of the classification step (vfs_scanner.py lines 443-451):
walk the no-appointment selectors, a raised `count()` is caught and the
loop continues, the first positive count wins. -/
def findNoAppt (ps : PageState) : List String → Bool
  | [] => false
  | sel :: rest =>
    match ps.locatorCount sel with
    | .ok n => if 0 < n then true else findNoAppt ps rest
    | .error _ => findNoAppt ps rest

/-- Inner extraction loop (vfs_scanner.py lines 468-474): for each of the
first ten slot handles, a raised `inner_text` is caught and skipped, and a
text is kept stripped when both it and its strip are non-empty. -/
def extractTexts : List Slot → List String
  | [] => []
  | s :: rest =>
    match s.innerText with
    | .ok t =>
      if t ≠ "" ∧ pyStrip t ≠ "" then pyStrip t :: extractTexts rest
      else extractTexts rest
    | .error _ => extractTexts rest

/-- Second loop of the classification step (vfs_scanner.py lines 460-478):
walk the slot selectors, a raised `all()` is caught and the loop
continues; the first selector with at least one handle sets
`has_appointment` and extracts texts from at most ten handles. -/
def scanSlots (ps : PageState) : List String → Bool × List String
  | [] => (false, [])
  | sel :: rest =>
    match ps.locatorAll sel with
    | .ok slots =>
      if 0 < slots.length then (true, extractTexts (slots.take 10))
      else scanSlots ps rest
    | .error _ => scanSlots ps rest

/-- The whole classification step (vfs_scanner.py lines 434-486), yielding
`(has_appointment, available_slots, message)`. -/
def classify (ps : PageState) (cfg : CountryConfig) :
    Bool × List String × String :=
  if findNoAppt ps cfg.no_appointment then
    (false, [], "No appointments available")
  else
    let found := scanSlots ps cfg.appointment_slots
    if found.1 then
      (true, found.2, "Found " ++ toString found.2.length ++ " available slots")
    else
      (false, found.2, "No slots detected on page")

/-- The navigation-failure result (vfs_scanner.py lines 413-421):
`success=False`, message `Navigation failed: ` plus the error text cut to
its first 100 characters. -/
def navFailResult (country_name e : String) (dur : Nat) : ScanResult :=
  { success := false, country := country_name, has_appointment := false
    available_slots := none
    message := "Navigation failed: " ++ pyTake 100 e
    scan_duration_ms := dur, session_saved := false }

/-- The result built by the outer exception handler (vfs_scanner.py lines
507-525). -/
def scanErrResult (country_name e : String) (dur : Nat) : ScanResult :=
  { success := false, country := country_name, has_appointment := false
    available_slots := none
    message := "Error: " ++ pyTake 100 e
    scan_duration_ms := dur, session_saved := false }

/-- The normal-path result (vfs_scanner.py lines 497-505):
`available_slots` is the collected list when `has_appointment` and `None`
otherwise. -/
def scanOkResult (country_name : String) (ha : Bool) (slots : List String)
    (msg : String) (dur : Nat) (saved : Bool) : ScanResult :=
  { success := true, country := country_name, has_appointment := ha
    available_slots := if ha then some slots else none
    message := msg
    scan_duration_ms := dur, session_saved := saved }

/-- Embeds `scan_country` (vfs_scanner.py lines 115-525), threading the
page ledger.  `credsProvided` is the truthiness of
`vfs_credentials and user_id` at line 337; the manual-session branch at
line 163 is guarded by the literal `False and ...` in the source and is
therefore dead, so the embedding goes straight to the elif chain.  All
oracle errors are consumed here: the try/except at lines 154/507 means no
exception leaves this function, which is why the embedding is a total
function into `ScanResult`.  On the credentialed path, when `ensure`
raises the local `page` variable was never assigned, so the handler at
line 511 closes nothing and the page opened inside `ensure_logged_in`
stays open in the ledger. -/
def scan_country (w : ScanWorld) (country_code country_name : String)
    (credsProvided : Bool) (L : PageLedger) : ScanResult × PageLedger :=
  let cfg := get_country_config country_code
  if credsProvided then
    let opened := openPage L
    match w.ensure with
    | .raised e =>
      (scanErrResult country_name e w.elapsedMs, opened.2)
    | .ok isNewLogin =>
      match w.postLoginNav with
      | .error e =>
        (scanErrResult country_name e w.elapsedMs, closePage opened.1 opened.2)
      | .ok _ =>
        let c := classify w.page cfg
        (scanOkResult country_name c.1 c.2.1 c.2.2 w.elapsedMs isNewLogin,
         closePage opened.1 opened.2)
  else
    let opened := openPage L
    match w.navPublic with
    | .error e =>
      (navFailResult country_name e w.elapsedMs, closePage opened.1 opened.2)
    | .ok _ =>
      match w.publicInteract with
      | .error e =>
        (scanErrResult country_name e w.elapsedMs, closePage opened.1 opened.2)
      | .ok _ =>
        let c := classify w.page cfg
        (scanOkResult country_name c.1 c.2.1 c.2.2 w.elapsedMs false,
         closePage opened.1 opened.2)

/-! ## Concrete instances used by the witness theorems -/

/-- A page whose locator calls all raise (never consulted on the paths
that use it). -/
def pageInert : PageState :=
  { locatorCount := fun _ => .error "Target page, context or browser has been closed"
    locatorAll := fun _ => .error "Target page, context or browser has been closed" }

/-- A page on which a no-appointment banner selector and a slot selector
both match, with one slot handle carrying padded text. -/
def pageBoth : PageState :=
  { locatorCount := fun sel => if sel = ".no-appointment-message" then .ok 1 else .ok 0
    locatorAll := fun sel =>
      if sel = ".appointment-slot.available" then .ok [⟨.ok " 12 January 2026 "⟩]
      else .ok [] }

/-- World in which `ensure_logged_in` raises after opening its page. -/
def wLeak : ScanWorld :=
  { ensure := .raised "Login failed: OTP not provided"
    postLoginNav := .ok ()
    navPublic := .ok ()
    publicInteract := .ok ()
    page := pageInert
    elapsedMs := 1234 }

/-- World in which the public-path navigation raises. -/
def wNavFail : ScanWorld :=
  { ensure := .ok false
    postLoginNav := .ok ()
    navPublic := .error "Timeout 30000ms exceeded waiting for navigation"
    publicInteract := .ok ()
    page := pageInert
    elapsedMs := 30001 }

/-- World in which every step succeeds over `pageBoth`. -/
def wScanOk : ScanWorld :=
  { ensure := .ok true
    postLoginNav := .ok ()
    navPublic := .ok ()
    publicInteract := .ok ()
    page := pageBoth
    elapsedMs := 4200 }

/-- An empty page ledger. -/
def ledger0 : PageLedger := ⟨0, []⟩

/-- Login world that reaches the OTP stage, with a mailbox read that
times out and a post-OTP stage that would succeed. -/
def wLoginProceed : LoginWorld :=
  { preOtp := .proceed
    readOtp := .ok none
    postOtp := .finished ⟨true, "Login successful", "auto"⟩ }

/-- Load world whose file and cookie operations all succeed. -/
def wLoadOk : LoadWorld := ⟨.ok (), .ok (), .ok ()⟩

/-- A session record that expired an hour ago (times in seconds, now = 0). -/
def sdExpired : SessionData := ⟨true, some (-3600), true, ["cookie1"]⟩

/-- A session record expiring one hour from now = 0. -/
def sdFresh : SessionData := ⟨true, some 3600, true, []⟩

/-- A page with no banner match and one matching slot selector whose
single handle carries padded text. -/
def pageSlots : PageState :=
  { locatorCount := fun _ => .ok 0
    locatorAll := fun sel =>
      if sel = ".appointment-slot.available" then .ok [⟨.ok " 12 January 2026 "⟩]
      else .ok [] }

/-- World in which every step succeeds over `pageSlots`. -/
def wScanSlots : ScanWorld :=
  { ensure := .ok false
    postLoginNav := .ok ()
    navPublic := .ok ()
    publicInteract := .ok ()
    page := pageSlots
    elapsedMs := 512 }

/-! ## Helper lemmas -/

/-- If some selector in the list yields a positive count, the first
classification loop reports a banner. -/
theorem findNoAppt_of_mem (ps : PageState) :
    ∀ (sels : List String) (sel : String) (n : Nat),
      sel ∈ sels → ps.locatorCount sel = .ok n → 0 < n →
      findNoAppt ps sels = true := by
  intro sels
  induction sels with
  | nil => intro sel n hmem _ _; exact absurd hmem (List.not_mem_nil sel)
  | cons head rest ih =>
    intro sel n hmem hcount hpos
    rcases List.mem_cons.mp hmem with heq | htail
    · subst heq
      simp [findNoAppt, hcount, hpos]
    · simp only [findNoAppt]
      cases hh : ps.locatorCount head with
      | ok m =>
        dsimp only
        by_cases hm : 0 < m
        · simp [hm]
        · rw [if_neg hm]
          exact ih sel n htail hcount hpos
      | error e =>
        dsimp only
        exact ih sel n htail hcount hpos

/-- The extraction loop keeps at most one text per slot handle. -/
theorem extractTexts_length_le : ∀ l : List Slot,
    (extractTexts l).length ≤ l.length := by
  intro l
  induction l with
  | nil => simp [extractTexts]
  | cons s rest ih =>
    simp only [extractTexts]
    cases s.innerText with
    | ok t =>
      dsimp only
      by_cases hc : t ≠ "" ∧ pyStrip t ≠ ""
      · rw [if_pos hc]
        simpa using Nat.succ_le_succ ih
      · rw [if_neg hc]
        exact Nat.le_succ_of_le ih
    | error e =>
      dsimp only
      exact Nat.le_succ_of_le ih

/-- Every text the extraction loop keeps is a non-empty stripped string. -/
theorem extractTexts_mem : ∀ (l : List Slot) (s : String),
    s ∈ extractTexts l → s ≠ "" ∧ ∃ u : String, s = pyStrip u := by
  intro l
  induction l with
  | nil => intro s h; simp [extractTexts] at h
  | cons sl rest ih =>
    intro s h
    simp only [extractTexts] at h
    cases hsl : sl.innerText with
    | ok t =>
      rw [hsl] at h
      dsimp only at h
      by_cases hc : t ≠ "" ∧ pyStrip t ≠ ""
      · rw [if_pos hc] at h
        rcases List.mem_cons.mp h with heq | htail
        · subst heq
          exact ⟨hc.2, t, rfl⟩
        · exact ih s htail
      · rw [if_neg hc] at h
        exact ih s h
    | error e =>
      rw [hsl] at h
      dsimp only at h
      exact ih s h

/-- Structure of the slot-scanning loop: an empty result when nothing is
found, and a bounded list of non-empty stripped texts when a selector
matched. -/
theorem scanSlots_spec (ps : PageState) :
    ∀ sels : List String,
      ((scanSlots ps sels).1 = false → (scanSlots ps sels).2 = []) ∧
      ((scanSlots ps sels).1 = true →
        (scanSlots ps sels).2.length ≤ 10 ∧
        ∀ s ∈ (scanSlots ps sels).2, s ≠ "" ∧ ∃ u : String, s = pyStrip u) := by
  intro sels
  induction sels with
  | nil => simp [scanSlots]
  | cons sel rest ih =>
    simp only [scanSlots]
    cases ps.locatorAll sel with
    | ok slots =>
      dsimp only
      by_cases hl : 0 < slots.length
      · rw [if_pos hl]
        dsimp only
        constructor
        · intro h; cases h
        · intro _
          refine ⟨?_, extractTexts_mem _⟩
          calc (extractTexts (slots.take 10)).length
              ≤ (slots.take 10).length := extractTexts_length_le _
            _ ≤ 10 := by simp [List.length_take]
      · rw [if_neg hl]; exact ih
    | error e =>
      dsimp only
      exact ih

/-- When classification reports availability, the collected slot list has
at most ten entries, all non-empty and stripped. -/
theorem classify_true_slots (ps : PageState) (cfg : CountryConfig) :
    (classify ps cfg).1 = true →
    (classify ps cfg).2.1.length ≤ 10 ∧
    ∀ s ∈ (classify ps cfg).2.1, s ≠ "" ∧ ∃ u : String, s = pyStrip u := by
  simp only [classify]
  split
  · intro h; cases h
  · split
    · intro _
      exact (scanSlots_spec ps cfg.appointment_slots).2 (by assumption)
    · intro h; cases h

/-! ## Claim theorems -/

/-- Claim C2: whenever at least one configured no-appointment selector
matches the page (its count call succeeds with a positive count), the
classification step yields `has_appointment = false` with message
"No appointments available", regardless of what the slot selectors would
match, because the no-appointment loop runs first and its hit skips the
slot loop entirely. -/
theorem classify_banner_wins (ps : PageState) (cfg : CountryConfig)
    (sel : String) (n : Nat) (hmem : sel ∈ cfg.no_appointment)
    (hcount : ps.locatorCount sel = .ok n) (hpos : 0 < n) :
    classify ps cfg = (false, [], "No appointments available") := by
  have hfound := findNoAppt_of_mem ps cfg.no_appointment sel n hmem hcount hpos
  simp [classify, hfound]

/-- Witness for C2 at a concrete page on which both the banner selector
and a slot selector match, under the registered Germany configuration:
the banner wins. -/
theorem classify_banner_wins_witness :
    classify pageBoth (get_country_config "deu") =
      (false, [], "No appointments available") :=
  classify_banner_wins pageBoth (get_country_config "deu")
    ".no-appointment-message" 1 (by decide) rfl (by decide)

/-- Claim C3: on any session record that carries a parseable
`expires_at`, the validity check is exactly the predicate
`expires_at > now + 5 minutes`: within the buffer or in the past it is
false, beyond it true. -/
theorem is_session_valid_expiry_predicate (now : ℚ) (sd : SessionData)
    (t : ℚ) (hkey : sd.hasExpiresAt = true)
    (hparse : sd.expiresAtParse = some t) :
    is_session_valid now (some sd) = true ↔ now + 5 * 60 < t := by
  simp [is_session_valid, hkey, hparse]

/-- Witness for C3: a record expiring 3600 s from now = 0 is valid. -/
theorem is_session_valid_expiry_predicate_witness :
    is_session_valid 0 (some sdFresh) = true :=
  (is_session_valid_expiry_predicate 0 sdFresh 3600 rfl rfl).mpr (by norm_num)

/-- Claim C4: the registry lookup lower-cases its argument, so any case
variant of a registered code returns that entry, and an unregistered code
returns the synthesized default whose base and appointment URLs are
derived from the lower-cased identifier; the function is total, so it
never fails. -/
theorem get_country_config_lookup_default (code : String)
    (cfg : CountryConfig) :
    (COUNTRY_CONFIGS.lookup (pyLower code) = some cfg →
      get_country_config code = cfg)
  ∧ (COUNTRY_CONFIGS.lookup (pyLower code) = none →
      get_country_config code = defaultConfig code
    ∧ (get_country_config code).base_url =
        "https://visa.vfsglobal.com/tur/en/" ++ pyLower code
    ∧ (get_country_config code).appointment_url =
        "https://visa.vfsglobal.com/tur/en/" ++ pyLower code
          ++ "/book-an-appointment") := by
  constructor
  · intro h; simp [get_country_config, h]
  · intro h
    refine ⟨by simp [get_country_config, h], ?_, ?_⟩ <;>
      simp [get_country_config, h, defaultConfig]

/-- Witness for C4: the upper-case variant of a registered code resolves
to the same configuration as the lower-case code, and an unregistered
code gets the derived default appointment URL. -/
theorem get_country_config_lookup_default_witness :
    get_country_config "DEU" = get_country_config "deu"
  ∧ (get_country_config "usa").appointment_url =
      "https://visa.vfsglobal.com/tur/en/usa/book-an-appointment" :=
  ⟨(get_country_config_lookup_default "DEU" (get_country_config "deu")).1 (by decide),
   ((get_country_config_lookup_default "usa" (defaultConfig "usa")).2 (by decide)).2.2⟩

/-- Claim C7: a record produced by a successful `save_session` with any
ttl above 0.1 hours is immediately valid, because the stamped expiry
`now + h hours` clears the five-minute buffer (one twelfth of an hour). -/
theorem save_session_then_valid (now : ℚ)
    (storageState : Except String (List String)) (h : ℚ)
    (sd : SessionData) (hh : 1/10 < h)
    (hsave : save_session now storageState h = some sd) :
    is_session_valid now (some sd) = true := by
  cases storageState with
  | error e => simp [save_session] at hsave
  | ok cookies =>
    simp only [save_session] at hsave
    obtain rfl := Option.some.inj hsave
    simp only [is_session_valid]
    norm_num
    linarith

/-- Witness for C7: saving with the ttl of 24 hours the call site uses
yields a record that is valid at the same instant. -/
theorem save_session_then_valid_witness :
    is_session_valid 0 (some ⟨true, some (0 + 24 * 3600), true, []⟩) = true :=
  save_session_then_valid 0 (.ok []) 24 ⟨true, some (0 + 24 * 3600), true, []⟩
    (by norm_num) rfl

/-- Claim C9: `load_session` rejects an expired record, a missing record
and a record without its state field by returning `false` with the
context untouched, and any error during the loading steps is caught and
reported as `false` (so a `true` result certifies that every fallible
step succeeded). -/
theorem load_session_rejects_without_mutation (now : ℚ) (w : LoadWorld)
    (ctx : BrowserCtx) (sd : SessionData) (t : ℚ) :
    (sd.expiresAtParse = some t → t < now →
      load_session now w ctx (some sd) = (false, ctx))
  ∧ (load_session now w ctx none = (false, ctx))
  ∧ (sd.hasState = false → load_session now w ctx (some sd) = (false, ctx))
  ∧ ((load_session now w ctx (some sd)).1 = true →
      w.writeTemp = .ok () ∧ w.addCookies = .ok () ∧ w.unlinkTemp = .ok ()) := by
  obtain ⟨hea, parse, hst, cookies⟩ := sd
  refine ⟨?_, rfl, ?_, ?_⟩
  · intro hp hlt
    cases hp
    cases hst with
    | false => simp [load_session]
    | true =>
      cases hea with
      | false => simp [load_session]
      | true =>
        have hgt : now > t := hlt
        simp [load_session, hgt]
  · intro h
    cases h
    simp [load_session]
  · rcases w with ⟨wt, ac, ul⟩
    cases hst with
    | false => intro h; simp [load_session] at h
    | true =>
      cases hea with
      | false => intro h; simp [load_session] at h
      | true =>
        cases parse with
        | none => intro h; simp [load_session] at h
        | some t2 =>
          by_cases hnt : now > t2
          · intro h; simp [load_session, hnt] at h
          · cases wt with
            | error e => intro h; simp [load_session, hnt] at h
            | ok u =>
              cases ac with
              | error e => intro h; simp [load_session, hnt] at h
              | ok v =>
                cases ul with
                | error e => intro h; simp [load_session, hnt] at h
                | ok z => intro _; exact ⟨rfl, rfl, rfl⟩

/-- Witness for C9: a record that expired an hour before now = 0 is
rejected with the context unchanged, even though every oracle succeeds. -/
theorem load_session_rejects_without_mutation_witness :
    load_session 0 wLoadOk ⟨["old"]⟩ (some sdExpired) = (false, ⟨["old"]⟩) :=
  (load_session_rejects_without_mutation 0 wLoadOk ⟨["old"]⟩ sdExpired
    (-3600)).1 rfl (by norm_num)

/-- Claim C5: OTP extraction tries the labelled patterns in source order
before the bare six-digit fallback, returns the first match, and on the
message "Your OTP is: 483920" extracts "483920" (via the fallback, since
the labelled pattern requires digits right after the separator run). -/
theorem extract_otp_pattern_order (t c : String) :
    (searchLabel "OTP".data t.data = some c →
      extract_otp_from_text t = some c)
  ∧ (tryLabelPatterns t.data otpLabelPatterns = none →
      extract_otp_from_text t = searchSixDigit none t.data)
  ∧ extract_otp_from_text "Your OTP is: 483920" = some "483920" := by
  refine ⟨?_, ?_, by decide⟩
  · intro h
    simp [extract_otp_from_text, otpLabelPatterns, tryLabelPatterns, h]
  · intro h
    simp [extract_otp_from_text, h]

/-- Witness for C5: a message matching the first labelled pattern is
extracted through it. -/
theorem extract_otp_pattern_order_witness :
    extract_otp_from_text "OTP: 1234" = some "1234" :=
  (extract_otp_pattern_order "OTP: 1234" "1234").1 (by decide)

/-- Claim C6: when the flow reaches the OTP stage without usable mailbox
credentials, the manual fallback yields the empty code and the login
returns the failure with message "OTP not provided" and method manual. -/
theorem login_to_vfs_otp_not_provided (w : LoginWorld)
    (ec : Option EmailCreds) (hpre : w.preOtp = .proceed)
    (hec : hasUsableEmailCreds ec = false) :
    wait_for_otp_manual 120 = ""
  ∧ login_to_vfs w ec =
      { success := false, message := "OTP not provided", otp_method := "manual" } := by
  refine ⟨rfl, ?_⟩
  simp [login_to_vfs, hpre, hec, otpFalsy, wait_for_otp_manual]

/-- Witness for C6 at a concrete world whose pre-OTP stages succeed and
whose mailbox is absent. -/
theorem login_to_vfs_otp_not_provided_witness :
    login_to_vfs wLoginProceed none =
      { success := false, message := "OTP not provided", otp_method := "manual" } :=
  (login_to_vfs_otp_not_provided wLoginProceed none rfl rfl).2

/-- Claim C1: `scan_country` is a total function into `ScanResult` — all
oracle failures are consumed by the try/except structure, so no exception
crosses its boundary and every call yields a result record carrying all
the documented fields (here: the country field always echoes the target
name on every path); and a navigation failure on the public path yields
`success = false` with the message built from the error text truncated to
its first 100 characters. -/
theorem scan_country_no_raise_nav_failure (w : ScanWorld)
    (country_code country_name : String) (creds : Bool) (L : PageLedger)
    (e : String) :
    (scan_country w country_code country_name creds L).1.country = country_name
  ∧ (w.navPublic = .error e →
      (scan_country w country_code country_name false L).1.success = false
    ∧ (scan_country w country_code country_name false L).1.message =
        "Navigation failed: " ++ pyTake 100 e
    ∧ (pyTake 100 e).length ≤ 100) := by
  constructor
  · cases creds with
    | true =>
      cases he : w.ensure with
      | raised s => simp [scan_country, he, scanErrResult]
      | ok b =>
        cases hn : w.postLoginNav with
        | error s => simp [scan_country, he, hn, scanErrResult]
        | ok u => simp [scan_country, he, hn, scanOkResult]
    | false =>
      cases hn : w.navPublic with
      | error s => simp [scan_country, hn, navFailResult]
      | ok u =>
        cases hi : w.publicInteract with
        | error s => simp [scan_country, hn, hi, scanErrResult]
        | ok v => simp [scan_country, hn, hi, scanOkResult]
  · intro hnav
    refine ⟨?_, ?_, ?_⟩
    · simp [scan_country, hnav, navFailResult]
    · simp [scan_country, hnav, navFailResult]
    · have h : (pyTake 100 e).length = (e.data.take 100).length := rfl
      rw [h, List.length_take]
      omega

/-- Witness for C1 at a world whose public navigation times out. -/
theorem scan_country_no_raise_nav_failure_witness :
    (scan_country wNavFail "nld" "Netherlands" false ledger0).1.success = false
  ∧ (scan_country wNavFail "nld" "Netherlands" false ledger0).1.message =
      "Navigation failed: "
        ++ pyTake 100 "Timeout 30000ms exceeded waiting for navigation"
  ∧ (pyTake 100 "Timeout 30000ms exceeded waiting for navigation").length ≤ 100 :=
  (scan_country_no_raise_nav_failure wNavFail "nld" "Netherlands" false ledger0
    "Timeout 30000ms exceeded waiting for navigation").2 rfl

/-- Counterexample for C8: when credentials are used and
`ensure_logged_in` raises after opening its page (for instance because
the login failed and line 837 of vfs_login.py raised), `scan_country`
returns its error result while the page opened inside `ensure_logged_in`
is still open — the handler at vfs_scanner.py line 511 only closes the
local `page`, which was never assigned.  Starting from an empty ledger,
the returned ledger still holds the leaked page handle 0. -/
theorem scan_country_page_leak_counterexample :
    (scan_country wLeak "nld" "Netherlands" true ledger0).2.openPages = [0]
  ∧ (scan_country wLeak "nld" "Netherlands" true ledger0).1.success = false :=
  ⟨rfl, rfl⟩

/-- Claim C8 as amended: on every path where the local `page` variable of
`scan_country` has been bound — the whole public path, and the
credentialed path whenever `ensure_logged_in` returns normally — the page
is closed before the result is returned (the ledger is restored); the
exception paths of `ensure_logged_in` are the ones that leak. -/
theorem scan_country_closes_bound_pages (w : ScanWorld)
    (country_code country_name : String) (L : PageLedger) :
    ((scan_country w country_code country_name false L).2.openPages = L.openPages)
  ∧ (∀ b, w.ensure = .ok b →
      (scan_country w country_code country_name true L).2.openPages = L.openPages) := by
  constructor
  · cases hn : w.navPublic with
    | error s => simp [scan_country, hn, openPage, closePage]
    | ok u =>
      cases hi : w.publicInteract with
      | error s => simp [scan_country, hn, hi, openPage, closePage]
      | ok v => simp [scan_country, hn, hi, openPage, closePage]
  · intro b hb
    cases hp : w.postLoginNav with
    | error s => simp [scan_country, hb, hp, openPage, closePage]
    | ok u => simp [scan_country, hb, hp, openPage, closePage]

/-- Witness for the amended C8: a fully successful credentialed scan
returns with the ledger back to its starting open set. -/
theorem scan_country_closes_bound_pages_witness :
    (scan_country wScanOk "nld" "Netherlands" true ledger0).2.openPages =
      ledger0.openPages :=
  (scan_country_closes_bound_pages wScanOk "nld" "Netherlands" ledger0).2 true rfl

/-- Slot-list facts for a normal-path result built from the
classification of an arbitrary page. -/
theorem okResult_slots_spec (country_name : String) (ps : PageState)
    (cfg : CountryConfig) (dur : Nat) (saved : Bool) :
    ((scanOkResult country_name (classify ps cfg).1 (classify ps cfg).2.1
        (classify ps cfg).2.2 dur saved).available_slots = none ↔
      (scanOkResult country_name (classify ps cfg).1 (classify ps cfg).2.1
        (classify ps cfg).2.2 dur saved).has_appointment = false)
  ∧ (∀ slots,
      (scanOkResult country_name (classify ps cfg).1 (classify ps cfg).2.1
        (classify ps cfg).2.2 dur saved).available_slots = some slots →
      slots.length ≤ 10 ∧ ∀ s ∈ slots, s ≠ "" ∧ ∃ u : String, s = pyStrip u) := by
  cases hc : (classify ps cfg).1 with
  | false => simp [scanOkResult, hc]
  | true =>
    constructor
    · simp [scanOkResult, hc]
    · intro slots hs
      simp only [scanOkResult, hc, if_pos, Option.some.injEq] at hs
      obtain ⟨h1, h2⟩ := classify_true_slots ps cfg hc
      subst hs
      exact ⟨h1, h2⟩

/-- Claim C10: in every `scan_country` result, `available_slots` is
`none` exactly when `has_appointment` is false, and whenever it carries a
list the list holds at most ten non-empty whitespace-stripped texts. -/
theorem scan_country_slots_iff (w : ScanWorld)
    (country_code country_name : String) (creds : Bool) (L : PageLedger) :
    ((scan_country w country_code country_name creds L).1.available_slots = none ↔
      (scan_country w country_code country_name creds L).1.has_appointment = false)
  ∧ (∀ slots,
      (scan_country w country_code country_name creds L).1.available_slots
        = some slots →
      slots.length ≤ 10 ∧ ∀ s ∈ slots, s ≠ "" ∧ ∃ u : String, s = pyStrip u) := by
  cases creds with
  | true =>
    cases he : w.ensure with
    | raised s => simp [scan_country, he, scanErrResult]
    | ok b =>
      cases hn : w.postLoginNav with
      | error s => simp [scan_country, he, hn, scanErrResult]
      | ok u =>
        have hok := okResult_slots_spec country_name w.page
          (get_country_config country_code) w.elapsedMs b
        simpa [scan_country, he, hn] using hok
  | false =>
    cases hn : w.navPublic with
    | error s => simp [scan_country, hn, navFailResult]
    | ok u =>
      cases hi : w.publicInteract with
      | error s => simp [scan_country, hn, hi, scanErrResult]
      | ok v =>
        have hok := okResult_slots_spec country_name w.page
          (get_country_config country_code) w.elapsedMs false
        simpa [scan_country, hn, hi] using hok

/-- Witness for C10 at a concrete successful scan over a page with one
padded slot text: the slot list carries the stripped text. -/
theorem scan_country_slots_iff_witness :
    (scan_country wScanSlots "fra" "France" false ledger0).1.available_slots
      = some ["12 January 2026"]
  ∧ ["12 January 2026"].length ≤ 10
  ∧ ∀ s ∈ ["12 January 2026"], s ≠ "" ∧ ∃ u : String, s = pyStrip u := by
  refine ⟨by decide, ?_⟩
  exact (scan_country_slots_iff wScanSlots "fra" "France" false ledger0).2
    ["12 January 2026"] (by decide)
